import Mathlib

/-
  Verification development for the V3 Sovereign OS repository
  (a set of Streamlit self-tracking dashboards).

  The definitions below are shallow embeddings of the Python source:
  pure computations become Lean functions, Streamlit session state becomes
  an explicit state record, file contents become explicit values, and the
  effects of external services (HTTP, ChromaDB) are modelled by outcome
  parameters supplied by the environment.
-/

/-! ## Data model (v3_command_center_v2.py)

A pillar is `{'name': ..., 'score': ..., 'focus': ...}`; scores are Python
ints, modelled as `Int`.  A shadow has the same shape.  A goal is
`{'id', 'name', 'pillar', 'progress', 'deadline'}` where `progress` may be
numeric (int/float), a non-numeric value, or the key may be absent
(`g.get('progress')` then yields `None`). -/

structure Pillar where
  name : String
  score : Int
  focus : String
deriving DecidableEq, Repr

structure Shadow where
  name : String
  score : Int
  focus : String
deriving DecidableEq, Repr

/-- Python value stored under a goal's `progress` key: a number
(int or float, modelled in ℚ), some non-numeric value, or absent. -/
inductive ProgressVal where
  | num : ℚ → ProgressVal
  | nonNum : ProgressVal
  | missing : ProgressVal
deriving DecidableEq, Repr

structure Goal where
  id : String
  name : String
  pillar : String
  progress : ProgressVal
  deadline : String
deriving DecidableEq, Repr

/-! ## Dashboard metrics (`render_dashboard`, v3_command_center_v2.py 362-405) -/

/-- Embeds `valid_progresses = [g.get('progress', 0) for g in goals if
isinstance(g.get('progress'), (int, float))]`: the values of goals whose
`progress` is numeric (a goal passing the filter has a numeric `progress`,
so the `get` default 0 is never used for a kept element). -/
def valid_progresses (goals : List Goal) : List ℚ :=
  goals.filterMap (fun g =>
    match g.progress with
    | ProgressVal.num q => some q
    | _ => none)

/-- Embeds the Goal Completion metric of `render_dashboard`:
`goal_progress = 0`, then `if goals:` and `if valid_progresses:` guard
`sum(valid_progresses) / len(valid_progresses)`. -/
def goal_progress (goals : List Goal) : ℚ :=
  if goals ≠ [] then
    let valid := valid_progresses goals
    if valid ≠ [] then valid.sum / (valid.length : ℚ) else 0
  else 0

/-- Embeds `sovereign_score = sum([p['score'] for p in pillars]) /
len(pillars) if pillars else 0` from `render_dashboard`. -/
def sovereign_score (pillars : List Pillar) : ℚ :=
  if pillars ≠ [] then
    ((pillars.map (fun p => (p.score : ℚ))).sum) / (pillars.length : ℚ)
  else 0

/-- Embeds `shadow_progress = sum([s['score'] for s in shadows]) /
len(shadows) if shadows else 0` from `render_dashboard`. -/
def shadow_progress (shadows : List Shadow) : ℚ :=
  if shadows ≠ [] then
    ((shadows.map (fun s => (s.score : ℚ))).sum) / (shadows.length : ℚ)
  else 0

/-! Concrete dashboard state used to test the Sovereign Score claim. -/

def cexPillars : List Pillar := [⟨"Health", 50, "Optimize energy."⟩]

def cexShadows : List Shadow := [⟨"Procrastination", 100, "Action bias."⟩]

def cexGoals : List Goal :=
  [⟨"g1", "Launch product", "Health", ProgressVal.num 100, "2025-01-01"⟩]

/-- Claim C1 (counterexample): the displayed Sovereign Score is not a
weighted average of the goal-completion percentage and the shadow-taming
percentage.  In the dashboard state `cexPillars`/`cexGoals`/`cexShadows`
the pillar list is non-empty, goal completion and shadow taming are both
100, yet the Sovereign Score is 50, which no choice of non-negative
weights summing to 1 can produce. -/
theorem C1_counterexample :
    cexPillars ≠ [] ∧
    ¬ ∃ w₁ w₂ : ℚ, 0 ≤ w₁ ∧ 0 ≤ w₂ ∧ w₁ + w₂ = 1 ∧
      sovereign_score cexPillars =
        w₁ * goal_progress cexGoals + w₂ * shadow_progress cexShadows := by
  constructor
  · intro h
    exact List.noConfusion h
  · rintro ⟨w₁, w₂, _, _, hsum, heq⟩
    have h₁ : sovereign_score cexPillars = 50 := by
      norm_num [sovereign_score, cexPillars, List.map, List.sum]
    have h₂ : goal_progress cexGoals = 100 := by
      norm_num [goal_progress, valid_progresses, cexGoals, List.filterMap,
        List.sum]
    have h₃ : shadow_progress cexShadows = 100 := by
      norm_num [shadow_progress, cexShadows, List.map, List.sum]
    rw [h₁, h₂, h₃] at heq
    nlinarith

/-- Claim C1 (amended): for every dashboard render with a non-empty pillar
list, the top-line Sovereign Score KPI equals the arithmetic mean of the
pillar scores; it is not computed from the goal-completion or
shadow-taming percentages at all. -/
theorem C1_sovereign_is_pillar_mean (pillars : List Pillar)
    (h : pillars ≠ []) :
    sovereign_score pillars =
      ((pillars.map (fun p => (p.score : ℚ))).sum) / (pillars.length : ℚ) := by
  simp [sovereign_score, h]

/-- Witness for `C1_sovereign_is_pillar_mean` at a concrete pillar list. -/
theorem C1_sovereign_is_pillar_mean_witness :
    sovereign_score [⟨"Health", 60, "x"⟩, ⟨"Wealth", 40, "y"⟩] = 50 := by
  have h := C1_sovereign_is_pillar_mean
    [⟨"Health", 60, "x"⟩, ⟨"Wealth", 40, "y"⟩] (by decide)
  rw [h]
  norm_num

/-- Claim C6: the dashboard's Goal Completion percentage equals the
arithmetic mean of the progress values of those goals whose progress is
numeric (int or float), and equals 0 when the goal list is empty or no
goal has a numeric progress value. -/
theorem C6_goal_completion_mean (goals : List Goal) :
    goal_progress goals =
      if valid_progresses goals = [] then 0
      else (valid_progresses goals).sum / ((valid_progresses goals).length : ℚ) := by
  by_cases hg : goals = []
  · subst hg
    simp [goal_progress, valid_progresses]
  · by_cases hv : valid_progresses goals = []
    · simp [goal_progress, hg, hv]
    · simp [goal_progress, hg, hv]

/-! ## Pillar & shadow score updates
(`render_pillars_shadows` 465-506, `update_pillar_score` 590-601,
 `render_tasks` 676-681 of v3_command_center_v2.py) -/

/-- A task dict of `tasks.json`: `{'id', 'name', 'pillar', 'priority',
'due', 'completed'}`.  (Named `TaskItem` because `Task` is taken.) -/
structure TaskItem where
  id : String
  name : String
  pillar : String
  priority : String
  due : String
  completed : Bool
deriving DecidableEq, Repr

/-- The mutable session state touched by task completion:
`st.session_state.pillars_data['pillars']`, `shadows_data['shadows']`,
`tasks_data['tasks']` and the `unsaved_changes` flag. -/
structure SessionState where
  pillars : List Pillar
  shadows : List Shadow
  tasks : List TaskItem
  unsaved_changes : Bool
deriving DecidableEq, Repr

/-- Embeds `boost_map = {'P1': 3, 'P2': 2, 'P3': 1}` with
`boost = boost_map.get(priority, 0)`. -/
def boost_map (priority : String) : Int :=
  if priority = "P1" then 3
  else if priority = "P2" then 2
  else if priority = "P3" then 1
  else 0

/-- Embeds `update_pillar_score`: walk the pillar list, and at the first
pillar whose name matches set `score := min(100, score + boost)`, then
return (the Python loop `return`s after the first match). -/
def update_pillar_score : List Pillar → String → String → List Pillar
  | [], _, _ => []
  | p :: rest, pillar_name, priority =>
    if p.name = pillar_name then
      ⟨p.name, min 100 (p.score + boost_map priority), p.focus⟩ :: rest
    else
      p :: update_pillar_score rest pillar_name priority

/-- Embeds the pillar-calibration slider write
`st.session_state.pillars_data['pillars'][i]['score'] = new_score`:
replace the score of the i-th pillar. -/
def setPillarScore : List Pillar → Nat → Int → List Pillar
  | [], _, _ => []
  | p :: rest, 0, v => ⟨p.name, v, p.focus⟩ :: rest
  | p :: rest, i + 1, v => p :: setPillarScore rest i v

/-- Embeds the shadow-calibration slider write
`st.session_state.shadows_data['shadows'][i]['score'] = new_score`. -/
def setShadowScore : List Shadow → Nat → Int → List Shadow
  | [], _, _ => []
  | s :: rest, 0, v => ⟨s.name, v, s.focus⟩ :: rest
  | s :: rest, i + 1, v => s :: setShadowScore rest i v

/-- Embeds the first-match lookup `if t['id'] == task['id']` in the task
completion loop of `render_tasks`. -/
def find_task : List TaskItem → String → Option TaskItem
  | [], _ => none
  | t :: rest, tid => if t.id = tid then some t else find_task rest tid

/-- Embeds `st.session_state.tasks_data['tasks'][t_idx]['completed'] =
True` for the first task matching the id (the loop stops at the first
match because `st.rerun()` aborts the script run). -/
def markCompleted : List TaskItem → String → List TaskItem
  | [], _ => []
  | t :: rest, tid =>
    if t.id = tid then
      ⟨t.id, t.name, t.pillar, t.priority, t.due, true⟩ :: rest
    else
      t :: markCompleted rest tid

/-- Embeds the task-completion handler of `render_tasks` (lines 676-681):
find the first task with the checked id, mark it completed, and apply
`update_pillar_score(t['pillar'], t['priority'])`; shadows are never
touched. -/
def completeTask (st : SessionState) (tid : String) : SessionState :=
  match find_task st.tasks tid with
  | none => st
  | some t =>
    ⟨update_pillar_score st.pillars t.pillar t.priority,
     st.shadows,
     markCompleted st.tasks tid,
     true⟩

/-- All scores in a pillar list are integers in 0..100. -/
def PillarsInRange (ps : List Pillar) : Prop :=
  ∀ p ∈ ps, 0 ≤ p.score ∧ p.score ≤ 100

/-- All taming-progress scores in a shadow list are integers in 0..100. -/
def ShadowsInRange (ss : List Shadow) : Prop :=
  ∀ s ∈ ss, 0 ≤ s.score ∧ s.score ≤ 100

theorem boost_map_nonneg (priority : String) : 0 ≤ boost_map priority := by
  unfold boost_map
  split
  · omega
  · split
    · omega
    · split <;> omega

theorem setPillarScore_inRange (ps : List Pillar) (i : Nat) (v : Int)
    (hps : PillarsInRange ps) (hv0 : 0 ≤ v) (hv1 : v ≤ 100) :
    PillarsInRange (setPillarScore ps i v) := by
  induction ps generalizing i with
  | nil => intro p hp; cases hp
  | cons p rest ih =>
    cases i with
    | zero =>
      intro q hq
      rcases List.mem_cons.mp hq with rfl | hq
      · exact ⟨hv0, hv1⟩
      · exact hps q (List.mem_cons_of_mem p hq)
    | succ i =>
      intro q hq
      rcases List.mem_cons.mp hq with rfl | hq
      · exact hps q (List.mem_cons_self q rest)
      · exact ih i (fun r hr => hps r (List.mem_cons_of_mem p hr)) q hq

theorem setShadowScore_inRange (ss : List Shadow) (i : Nat) (v : Int)
    (hss : ShadowsInRange ss) (hv0 : 0 ≤ v) (hv1 : v ≤ 100) :
    ShadowsInRange (setShadowScore ss i v) := by
  induction ss generalizing i with
  | nil => intro s hs; cases hs
  | cons s rest ih =>
    cases i with
    | zero =>
      intro q hq
      rcases List.mem_cons.mp hq with rfl | hq
      · exact ⟨hv0, hv1⟩
      · exact hss q (List.mem_cons_of_mem s hq)
    | succ i =>
      intro q hq
      rcases List.mem_cons.mp hq with rfl | hq
      · exact hss q (List.mem_cons_self q rest)
      · exact ih i (fun r hr => hss r (List.mem_cons_of_mem s hr)) q hq

theorem update_pillar_score_inRange (ps : List Pillar) (n pr : String)
    (hps : PillarsInRange ps) :
    PillarsInRange (update_pillar_score ps n pr) := by
  induction ps with
  | nil => intro p hp; cases hp
  | cons p rest ih =>
    unfold update_pillar_score
    split
    · intro q hq
      rcases List.mem_cons.mp hq with rfl | hq
      · have hp := hps p (List.mem_cons_self p rest)
        have hb := boost_map_nonneg pr
        refine ⟨?_, ?_⟩ <;> simp only [] <;> omega
      · exact hps q (List.mem_cons_of_mem p hq)
    · intro q hq
      rcases List.mem_cons.mp hq with rfl | hq
      · exact hps q (List.mem_cons_self q rest)
      · exact ih (fun r hr => hps r (List.mem_cons_of_mem p hr)) q hq

/-- Claim C4: every pillar score and every shadow taming-progress score
stays an integer in 0..100 under every operation that modifies them: the
0-100 calibration sliders of the Pillars & Shadows page (whose widget
bounds force `0 ≤ v ≤ 100`), and the task-completion boost applied by
`update_pillar_score`, which caps at 100. -/
theorem C4_scores_stay_in_range
    (ps : List Pillar) (ss : List Shadow) (i j : Nat) (v w : Int)
    (n pr : String)
    (hps : PillarsInRange ps) (hss : ShadowsInRange ss)
    (hv0 : 0 ≤ v) (hv1 : v ≤ 100) (hw0 : 0 ≤ w) (hw1 : w ≤ 100) :
    PillarsInRange (setPillarScore ps i v) ∧
    PillarsInRange (update_pillar_score ps n pr) ∧
    ShadowsInRange (setShadowScore ss j w) :=
  ⟨setPillarScore_inRange ps i v hps hv0 hv1,
   update_pillar_score_inRange ps n pr hps,
   setShadowScore_inRange ss j w hss hw0 hw1⟩

/-- Witness for `C4_scores_stay_in_range` on a concrete state. -/
theorem C4_scores_stay_in_range_witness :
    PillarsInRange (setPillarScore [⟨"Health", 60, "f"⟩] 0 85) ∧
    PillarsInRange (update_pillar_score [⟨"Health", 60, "f"⟩] "Health" "P1") ∧
    ShadowsInRange (setShadowScore [⟨"Doubt", 30, "g"⟩] 0 99) :=
  C4_scores_stay_in_range [⟨"Health", 60, "f"⟩] [⟨"Doubt", 30, "g"⟩]
    0 0 85 99 "Health" "P1"
    (by unfold PillarsInRange; decide) (by unfold ShadowsInRange; decide)
    (by decide) (by decide) (by decide) (by decide)

/-- If no pillar before `p` matches the name and `p` does, then
`update_pillar_score` boosts exactly `p` and leaves the rest alone. -/
theorem update_pillar_score_split (pre : List Pillar) (p : Pillar)
    (post : List Pillar) (n pr : String)
    (hpre : ∀ q ∈ pre, q.name ≠ n) (hp : p.name = n) :
    update_pillar_score (pre ++ p :: post) n pr =
      pre ++ ⟨p.name, min 100 (p.score + boost_map pr), p.focus⟩ :: post := by
  induction pre with
  | nil =>
    simp only [List.nil_append]
    unfold update_pillar_score
    simp [hp]
  | cons q pre ih =>
    have hq : q.name ≠ n := hpre q (List.mem_cons_self q pre)
    simp only [List.cons_append]
    unfold update_pillar_score
    rw [if_neg hq, ih (fun r hr => hpre r (List.mem_cons_of_mem q hr))]

/-- Claim C10: when a task is marked completed, only the score of the
single pillar linked to that task changes: it becomes
`min 100 (score + boost)` where the boost is exactly 3, 2, or 1 for
priority P1, P2, or P3 and 0 for any other priority, while every pillar
before and after it, every shadow, and its own name and focus are
unchanged. -/
theorem C10_completeTask_frame (st : SessionState) (tid : String)
    (t : TaskItem) (pre : List Pillar) (p : Pillar) (post : List Pillar)
    (hfind : find_task st.tasks tid = some t)
    (hsplit : st.pillars = pre ++ p :: post)
    (hp : p.name = t.pillar)
    (hpre : ∀ q ∈ pre, q.name ≠ t.pillar)
    (_hpost : ∀ q ∈ post, q.name ≠ t.pillar) :
    (completeTask st tid).shadows = st.shadows ∧
    (completeTask st tid).pillars =
      pre ++ ⟨p.name, min 100 (p.score + boost_map t.priority), p.focus⟩ :: post ∧
    boost_map "P1" = 3 ∧ boost_map "P2" = 2 ∧ boost_map "P3" = 1 ∧
    (t.priority ≠ "P1" → t.priority ≠ "P2" → t.priority ≠ "P3" →
      boost_map t.priority = 0) := by
  refine ⟨?_, ?_, by decide, by decide, by decide, ?_⟩
  · unfold completeTask
    rw [hfind]
  · unfold completeTask
    rw [hfind]
    simp only []
    rw [hsplit]
    exact update_pillar_score_split pre p post t.pillar t.priority hpre hp
  · intro h1 h2 h3
    unfold boost_map
    simp [h1, h2, h3]

/-! Concrete state for the task-completion witness. -/

def wTask : TaskItem := ⟨"t1", "Close deal", "Wealth", "P2", "2025-06-01", false⟩

def wState : SessionState :=
  ⟨[⟨"Health", 60, "a"⟩, ⟨"Wealth", 45, "b"⟩, ⟨"Sovereignty", 55, "c"⟩],
   [⟨"Procrastination", 80, "d"⟩],
   [wTask],
   false⟩

/-- Witness for `C10_completeTask_frame`: completing the P2 task linked to
the Wealth pillar moves only that pillar's score from 45 to 47. -/
theorem C10_completeTask_frame_witness :
    (completeTask wState "t1").shadows = wState.shadows ∧
    (completeTask wState "t1").pillars =
      [⟨"Health", 60, "a"⟩] ++
        ⟨"Wealth", min 100 ((45 : Int) + boost_map wTask.priority), "b"⟩ ::
          [⟨"Sovereignty", 55, "c"⟩] ∧
    boost_map "P1" = 3 ∧ boost_map "P2" = 2 ∧ boost_map "P3" = 1 ∧
    (wTask.priority ≠ "P1" → wTask.priority ≠ "P2" → wTask.priority ≠ "P3" →
      boost_map wTask.priority = 0) :=
  C10_completeTask_frame wState "t1" wTask
    [⟨"Health", 60, "a"⟩] ⟨"Wealth", 45, "b"⟩ [⟨"Sovereignty", 55, "c"⟩]
    (by decide) (by decide) (by decide) (by decide) (by decide)

/-! ## Gemini API call with retry/backoff
(`call_gemini_api`, v3_command_center_v2.py 790-876)

The HTTP round trip and the JSON parse are effects of the environment, so
each attempt's outcome is supplied as a parameter: either the parsed
response of a successful `requests.post` + `raise_for_status` + `.json()`,
or a `requests.exceptions.RequestException`, or any other exception raised
inside the `try` body.  Loading `st.secrets` is likewise an environment
outcome.  The function's returned Python dict is modelled as an
association list so that the presence of the `'text'` and `'sources'`
keys is a provable property rather than a typing artefact. -/

/-- A value of the returned dict: the `'text'` string or the `'sources'`
list of strings. -/
inductive RVal where
  | str : String → RVal
  | strList : List String → RVal
deriving DecidableEq, Repr

/-- Association-list lookup with Python `dict` key semantics. -/
def alookup {α : Type} (k : String) : List (String × α) → Option α
  | [] => none
  | (k', v) :: rest => if k' = k then some v else alookup k rest

/-- The dict literal used by every `return` of `call_gemini_api`. -/
def mkDict (text : String) (sources : List String) : List (String × RVal) :=
  [("text", RVal.str text), ("sources", RVal.strList sources)]

/-- One grounding attribution: `attr.get('web', {}).get('uri')` /
`.get('title')`. -/
structure GroundAttr where
  uri : Option String
  title : Option String
deriving DecidableEq, Repr

/-- The parsed body of a successful HTTP response, reduced to what the
source inspects: the first candidate's text if present and non-empty
(Python truthiness), and its grounding attributions (empty when
`groundingMetadata` is absent or has no `groundingAttributions`). -/
structure GeminiResponse where
  candidateText : Option String
  groundingAttributions : List GroundAttr
deriving DecidableEq, Repr

/-- What one loop iteration's `try` body does, as seen from outside. -/
inductive AttemptOutcome where
  | success : GeminiResponse → AttemptOutcome
  | requestError : String → AttemptOutcome
  | otherError : String → AttemptOutcome
deriving Repr

/-- Outcome of reading `st.secrets["GEMINI_API_KEY"]`. -/
inductive SecretsOutcome where
  | found : String → SecretsOutcome
  | keyMissing : SecretsOutcome
  | loadError : String → SecretsOutcome
deriving Repr

/-- Python's `" | ".join(...)` / `"\n\n---\n\n".join(...)`. -/
def joinSep (sep : String) : List String → String
  | [] => ""
  | [s] => s
  | s :: rest => s ++ sep ++ joinSep sep rest

/-- Embeds the success branch of the loop body: extract the candidate
text, build markdown source links from attributions that have both a uri
and a title (only when `use_search`), and append a Sources trailer when
any link was built. -/
def processResponse (use_search : Bool) (r : GeminiResponse) :
    List (String × RVal) :=
  match r.candidateText with
  | none =>
    mkDict "Error: Could not retrieve a valid text response from the AI model." []
  | some text =>
    if use_search ∧ r.groundingAttributions ≠ [] then
      let sources := r.groundingAttributions.filterMap (fun a =>
        match a.uri, a.title with
        | some uri, some title => some ("[" ++ title ++ "](" ++ uri ++ ")")
        | _, _ => none)
      if sources ≠ [] then
        mkDict (text ++ "\n\n---\n**Sources:** " ++ joinSep " | " sources) sources
      else
        mkDict text sources
    else
      mkDict text []

/-- The error text returned when the key is missing from `st.secrets`. -/
def keyMissingText : String :=
  "Error: `GEMINI_API_KEY` not found. Please create a file named `.streamlit/secrets.toml` in your app\x27s root directory and add `GEMINI_API_KEY = \"YOUR_API_KEY_HERE\"`."

/-- The error text returned after the retries are exhausted. -/
def exhaustedText (e : String) : String :=
  "Error: Failed to connect to AI service after multiple retries (Status: "
    ++ e ++ "). **This often indicates your GEMINI_API_KEY in secrets.toml is invalid, expired, or has insufficient permissions.**"

/-- Result of a run of `call_gemini_api`: the returned dict, the number of
HTTP attempts actually made, and the successive `asyncio.sleep` delays in
seconds. -/
structure GeminiTrace where
  result : List (String × RVal)
  attempts : Nat
  delays : List Nat
deriving DecidableEq, Repr

/-- Embeds `for attempt in range(4)`: `fuel` is the number of remaining
iterations and `attempt` the current index, so the top-level call uses
`fuel = 4`, `attempt = 0`.  On a `RequestException` with `attempt < 3`
the code sleeps `2 ** attempt` seconds and retries; on the last attempt
it returns the exhausted-retries dict.  The `fuel = 0` case is the
post-loop `return` (dead code when started with fuel 4). -/
def gemini_retry_loop (use_search : Bool) (outcomes : Nat → AttemptOutcome) :
    Nat → Nat → GeminiTrace
  | _, 0 => ⟨mkDict "Error: Maximum retry attempts reached." [], 0, []⟩
  | attempt, fuel + 1 =>
    match outcomes attempt with
    | AttemptOutcome.success r => ⟨processResponse use_search r, 1, []⟩
    | AttemptOutcome.otherError e =>
      ⟨mkDict ("An unexpected error occurred during AI call processing: " ++ e) [],
       1, []⟩
    | AttemptOutcome.requestError e =>
      if attempt < 3 then
        let t := gemini_retry_loop use_search outcomes (attempt + 1) fuel
        ⟨t.result, t.attempts + 1, 2 ^ attempt :: t.delays⟩
      else
        ⟨mkDict (exhaustedText e) [], 1, []⟩

/-- Embeds `call_gemini_api`: read the API key from `st.secrets`
(returning an error dict when that fails), then run the retry loop with
up to 4 attempts. -/
def call_gemini_api (secrets : SecretsOutcome) (use_search : Bool)
    (outcomes : Nat → AttemptOutcome) : GeminiTrace :=
  match secrets with
  | SecretsOutcome.found _ => gemini_retry_loop use_search outcomes 0 4
  | SecretsOutcome.keyMissing => ⟨mkDict keyMissingText [], 0, []⟩
  | SecretsOutcome.loadError e =>
    ⟨mkDict ("Error loading Streamlit secrets: " ++ e) [], 0, []⟩

theorem gemini_retry_loop_attempts_le (use_search : Bool)
    (outcomes : Nat → AttemptOutcome) (attempt fuel : Nat) :
    (gemini_retry_loop use_search outcomes attempt fuel).attempts ≤ fuel := by
  induction fuel generalizing attempt with
  | zero => simp [gemini_retry_loop]
  | succ fuel ih =>
    unfold gemini_retry_loop
    cases outcomes attempt with
    | success r => simp
    | otherError e => simp
    | requestError e =>
      by_cases h : attempt < 3
      · simp only [if_pos h]
        exact Nat.succ_le_succ (ih (attempt + 1))
      · simp [if_neg h]

theorem gemini_retry_loop_delays (use_search : Bool)
    (outcomes : Nat → AttemptOutcome) (attempt fuel : Nat) :
    (gemini_retry_loop use_search outcomes attempt fuel).delays =
      (List.range (gemini_retry_loop use_search outcomes attempt fuel).delays.length).map
        (fun k => 2 ^ (attempt + k)) := by
  induction fuel generalizing attempt with
  | zero => simp [gemini_retry_loop]
  | succ fuel ih =>
    unfold gemini_retry_loop
    cases outcomes attempt with
    | success r => simp
    | otherError e => simp
    | requestError e =>
      by_cases h : attempt < 3
      · simp only [if_pos h]
        have ihh := ih (attempt + 1)
        have hfun : ((fun k => (2 : Nat) ^ (attempt + k)) ∘ Nat.succ)
            = (fun k => 2 ^ (attempt + 1 + k)) := by
          funext k
          simp only [Function.comp_apply, Nat.succ_eq_add_one]
          congr 1
          omega
        simp only [List.length_cons, List.range_succ_eq_map, List.map_cons,
          List.map_map]
        rw [hfun, ← ihh]
        simp
      · simp [if_neg h]

/-- Claim C2: `call_gemini_api` retries its single HTTP POST with
exponential backoff.  With a valid key it makes at most 4 attempts; the
list of waits is always `2^0, 2^1, ...` (so after the k-th consecutive
failed attempt, k = 1, 2, 3, it waits exactly `2^(k-1)` seconds before
the next attempt); and when all four attempts raise a
`RequestException` it makes exactly 4 attempts, waits 1, 2 and 4 seconds
between them, and returns the error-text dict built from the last
exception instead of attempting again. -/
theorem C2_exponential_backoff (key : String) (use_search : Bool)
    (outcomes : Nat → AttemptOutcome) :
    (call_gemini_api (SecretsOutcome.found key) use_search outcomes).attempts ≤ 4 ∧
    (call_gemini_api (SecretsOutcome.found key) use_search outcomes).delays =
      (List.range
        (call_gemini_api (SecretsOutcome.found key) use_search outcomes).delays.length).map
        (fun k => 2 ^ k) ∧
    (∀ es : Nat → String, (∀ i, i < 4 → outcomes i = AttemptOutcome.requestError (es i)) →
      (call_gemini_api (SecretsOutcome.found key) use_search outcomes).attempts = 4 ∧
      (call_gemini_api (SecretsOutcome.found key) use_search outcomes).delays = [1, 2, 4] ∧
      (call_gemini_api (SecretsOutcome.found key) use_search outcomes).result =
        mkDict (exhaustedText (es 3)) []) := by
  refine ⟨?_, ?_, ?_⟩
  · exact gemini_retry_loop_attempts_le use_search outcomes 0 4
  · have h := gemini_retry_loop_delays use_search outcomes 0 4
    simpa using h
  · intro es hes
    have h0 := hes 0 (by omega)
    have h1 := hes 1 (by omega)
    have h2 := hes 2 (by omega)
    have h3 := hes 3 (by omega)
    unfold call_gemini_api
    unfold gemini_retry_loop
    rw [h0]
    simp only [Nat.zero_lt_succ, if_pos (by omega : (0 : Nat) < 3)]
    unfold gemini_retry_loop
    rw [h1]
    simp only [if_pos (by omega : (1 : Nat) < 3)]
    unfold gemini_retry_loop
    rw [h2]
    simp only [if_pos (by omega : (2 : Nat) < 3)]
    unfold gemini_retry_loop
    rw [h3]
    simp only [if_neg (by omega : ¬ (3 : Nat) < 3)]
    refine ⟨rfl, by norm_num, rfl⟩

/-- Witness for `C2_exponential_backoff`: with every attempt failing, the
call makes 4 attempts, waits 1, 2 and 4 seconds, and returns the
exhausted-retries error dict. -/
theorem C2_exponential_backoff_witness :
    (call_gemini_api (SecretsOutcome.found "k") true
      (fun _ => AttemptOutcome.requestError "timeout")).attempts = 4 ∧
    (call_gemini_api (SecretsOutcome.found "k") true
      (fun _ => AttemptOutcome.requestError "timeout")).delays = [1, 2, 4] ∧
    (call_gemini_api (SecretsOutcome.found "k") true
      (fun _ => AttemptOutcome.requestError "timeout")).result =
      mkDict (exhaustedText "timeout") [] :=
  (C2_exponential_backoff "k" true
      (fun _ => AttemptOutcome.requestError "timeout")).2.2
    (fun _ => "timeout") (fun _ _ => rfl)

theorem mkDict_has_keys (text : String) (sources : List String) :
    (alookup "text" (mkDict text sources)).isSome ∧
    (alookup "sources" (mkDict text sources)).isSome := by
  simp [mkDict, alookup]

theorem processResponse_has_keys (use_search : Bool) (r : GeminiResponse) :
    (alookup "text" (processResponse use_search r)).isSome ∧
    (alookup "sources" (processResponse use_search r)).isSome := by
  unfold processResponse
  cases r.candidateText with
  | none => exact mkDict_has_keys _ _
  | some text =>
    by_cases h : use_search ∧ r.groundingAttributions ≠ []
    · simp only [if_pos h]
      split
      · exact mkDict_has_keys _ _
      · exact mkDict_has_keys _ _
    · simp only [if_neg h]
      exact mkDict_has_keys _ _

theorem gemini_retry_loop_has_keys (use_search : Bool)
    (outcomes : Nat → AttemptOutcome) (attempt fuel : Nat) :
    (alookup "text" (gemini_retry_loop use_search outcomes attempt fuel).result).isSome ∧
    (alookup "sources" (gemini_retry_loop use_search outcomes attempt fuel).result).isSome := by
  induction fuel generalizing attempt with
  | zero => exact mkDict_has_keys _ _
  | succ fuel ih =>
    unfold gemini_retry_loop
    cases outcomes attempt with
    | success r => exact processResponse_has_keys use_search r
    | otherError e => exact mkDict_has_keys _ _
    | requestError e =>
      by_cases h : attempt < 3
      · simp only [if_pos h]
        exact ih (attempt + 1)
      · simp only [if_neg h]
        exact mkDict_has_keys _ _

/-- Claim C9: on every execution path — successful response, missing or
unloadable API key, malformed or empty model response, request exception
after retries, and any other exception raised inside an attempt —
`call_gemini_api` returns a dictionary containing both a `'text'` key and
a `'sources'` key; no path propagates an exception (every branch of the
embedding produces a result dict, mirroring the source where every
fallible statement sits inside a `try` whose handlers `return`). -/
theorem C9_result_always_has_text_and_sources (secrets : SecretsOutcome)
    (use_search : Bool) (outcomes : Nat → AttemptOutcome) :
    (alookup "text" (call_gemini_api secrets use_search outcomes).result).isSome ∧
    (alookup "sources" (call_gemini_api secrets use_search outcomes).result).isSome := by
  cases secrets with
  | found key => exact gemini_retry_loop_has_keys use_search outcomes 0 4
  | keyMissing => exact mkDict_has_keys _ _
  | loadError e => exact mkDict_has_keys _ _

/-! ## RAG coach chat (`render_rag_chat_interface`, v3_command_center_v2.py
937-1048)

The handler for a submitted user query performs, in order: append the
user message to the history, query the ChromaDB collection
(`collection.query(query_texts=[user_query], n_results=5)`), build the
final system prompt around the retrieved snippets, call the language
model through `run_async_ai_call`, and append the assistant message.
The two external calls are recorded as an event trace so that their
relative order is a provable property; the ChromaDB result (or the
exception it raises) and the AI reply text are environment parameters. -/

structure ChatMessage where
  role : String
  text : String
  is_user : Bool
deriving DecidableEq, Repr

/-- An externally visible call made while handling one RAG chat query. -/
inductive RagEvent where
  | chromaQuery (collectionName : String) (queryText : String) (nResults : Nat)
  | llmCall (history : List ChatMessage) (systemPrompt : String) (useSearch : Bool)
deriving DecidableEq, Repr

/-- String `t` contains `s` as a contiguous substring. -/
def strEmbeds (t s : String) : Prop :=
  ∃ a b : String, t = a ++ s ++ b

/-- Embeds the `knowledge_prompt` construction: when chunks were
retrieved, wrap `"\n\n---\n\n".join(...)` in the internal-knowledge
header, otherwise use the fixed not-found sentence. -/
def knowledge_prompt_of (chunks : List String) : String :=
  if chunks ≠ [] then
    "\nHere is the relevant internal knowledge I found in your notes:\n---\n"
      ++ joinSep "\n\n---\n\n" chunks ++ "\n---\n"
  else
    "I couldn\x27t find any relevant information in your internal notes for this specific query."

/-- The static part of `final_system_prompt` that precedes
`knowledge_prompt` (the f-string body around `base_system_prompt`). -/
def ragDirective (base_system_prompt : String) : String :=
  "\n" ++ base_system_prompt
    ++ "\n\nYou have two sources of information:\n1.  **Internal Knowledge (Your Notes):** This is your primary source of truth.\n2.  **External Knowledge (Google Search):** This is your backup for general information.\n\n**Your directive is:**\nFirst, answer the user\x27s query *only* using the \"Internal Knowledge\" provided below.\nIf that internal knowledge does not contain the answer, and *only* then, use your external Google Search ability to find a general answer.\nAlways state whether your answer is from the internal notes or from an external search.\n\n"

/-- Embeds `final_system_prompt`. -/
def final_system_prompt (base_system_prompt : String)
    (chunks : List String) : String :=
  ragDirective base_system_prompt ++ knowledge_prompt_of chunks ++ "\n"

/-- Embeds the `if user_query:` handler of `render_rag_chat_interface`:
append the user message, query ChromaDB (5 results), and on success call
the model with the full history and the knowledge-bearing system prompt
(`use_search=True`), appending the assistant reply; when the ChromaDB
query raises, no model call happens and an apology message is appended
instead.  Returns the event trace and the new history. -/
def rag_handle_query (collectionName base_system_prompt : String)
    (history : List ChatMessage) (user_query : String)
    (queryResult : Except String (List String)) (aiText : String) :
    List RagEvent × List ChatMessage :=
  let history1 := history ++ [⟨"user", user_query, true⟩]
  match queryResult with
  | Except.error e =>
    ([RagEvent.chromaQuery collectionName user_query 5],
     history1 ++
       [⟨"model",
         "Sorry, I encountered an error trying to search your notes: " ++ e,
         false⟩])
  | Except.ok chunks =>
    ([RagEvent.chromaQuery collectionName user_query 5,
      RagEvent.llmCall history1 (final_system_prompt base_system_prompt chunks) true],
     history1 ++ [⟨"model", aiText, false⟩])

theorem joinSep_embeds (sep : String) (l : List String) (s : String)
    (hs : s ∈ l) : ∃ a b : String, joinSep sep l = a ++ s ++ b := by
  induction l with
  | nil => cases hs
  | cons x rest ih =>
    rcases List.mem_cons.mp hs with rfl | hs
    · cases rest with
      | nil =>
        refine ⟨"", "", ?_⟩
        simp [joinSep]
      | cons y ys =>
        refine ⟨"", sep ++ joinSep sep (y :: ys), ?_⟩
        simp only [joinSep]
        rw [String.append_assoc]
        simp
    · have hre : rest ≠ [] := List.ne_nil_of_mem hs
      obtain ⟨a, b, hab⟩ := ih hs
      cases rest with
      | nil => cases hs
      | cons y ys =>
        refine ⟨x ++ sep ++ a, b, ?_⟩
        simp only [joinSep]
        rw [hab]
        simp only [String.append_assoc]

/-- Every retrieved snippet appears verbatim inside the final system
prompt (when any snippets were retrieved). -/
theorem snippet_in_final_prompt (base : String) (chunks : List String)
    (s : String) (hs : s ∈ chunks) :
    strEmbeds (final_system_prompt base chunks) s := by
  have hne : chunks ≠ [] := List.ne_nil_of_mem hs
  obtain ⟨a, b, hab⟩ := joinSep_embeds "\n\n---\n\n" chunks s hs
  refine ⟨ragDirective base
      ++ "\nHere is the relevant internal knowledge I found in your notes:\n---\n"
      ++ a,
    b ++ "\n---\n" ++ "\n", ?_⟩
  unfold final_system_prompt knowledge_prompt_of
  rw [if_pos hne, hab]
  simp only [String.append_assoc]

/-- Claim C3: for every user query submitted to a RAG coach chat panel,
the handler first queries the named ChromaDB collection with the user's
query text and `n_results=5` (the event trace starts with that query and
the model call comes strictly after it), and only afterwards calls the
hosted language model, forwarding a system prompt that embeds every
retrieved snippet verbatim together with a history containing the user's
question. -/
theorem C3_retrieve_before_llm (collectionName base : String)
    (history : List ChatMessage) (q : String) (chunks : List String)
    (aiText : String) :
    (rag_handle_query collectionName base history q (Except.ok chunks) aiText).1 =
      [RagEvent.chromaQuery collectionName q 5,
       RagEvent.llmCall (history ++ [⟨"user", q, true⟩])
         (final_system_prompt base chunks) true] ∧
    (⟨"user", q, true⟩ : ChatMessage) ∈ history ++ [⟨"user", q, true⟩] ∧
    (∀ s ∈ chunks, strEmbeds (final_system_prompt base chunks) s) := by
  refine ⟨rfl, List.mem_append_right _ (List.mem_singleton_self _), ?_⟩
  intro s hs
  exact snippet_in_final_prompt base chunks s hs

/-- Witness for `C3_retrieve_before_llm`: a concrete retrieved snippet is
embedded in the system prompt forwarded by the model call. -/
theorem C3_retrieve_before_llm_witness :
    strEmbeds (final_system_prompt "You are the V3 Business Coach." ["alpha"]) "alpha" :=
  (C3_retrieve_before_llm "business_coach_notes" "You are the V3 Business Coach."
      [] "hello" ["alpha"] "ok").2.2 "alpha" (List.mem_singleton_self _)

/-! ## Daily command log (v3_command_center.py 304-327 and
daily_operations_command.py 372-395)

The CSV file `data/daily_log.csv` is modelled as its list of data rows;
each row is the association list of column-name/cell pairs that
`pd.DataFrame([new_row])` carries, in the dict-literal order of the
source.  `pd.concat([df, pd.DataFrame([new_row])], ignore_index=True)
.to_csv(...)` rewrites the file as the old rows followed by the new
row. -/

/-- A CSV cell: the date/notes strings or the integer slider scores. -/
inductive Cell where
  | int : Int → Cell
  | str : String → Cell
deriving DecidableEq, Repr

/-- A CSV data row as column-name/cell pairs. -/
def CsvRow : Type := List (String × Cell)

namespace V3CC

/-- Embeds the `new_row` dict literal of the `daily_log` form in
v3_command_center.py (lines 319-325). -/
def daily_log_new_row (today : String) (focus energy business_progress : Int)
    (notes : String) : CsvRow :=
  [("Date", Cell.str today),
   ("Focus_Score", Cell.int focus),
   ("Energy_Score", Cell.int energy),
   ("Business_Progress", Cell.int business_progress),
   ("Notes", Cell.str notes)]

/-- Embeds the submit handler of the `daily_log` form in
v3_command_center.py (lines 317-327): read the CSV, concatenate the new
row, write the result back. -/
def submit_daily_log (file : List CsvRow) (today : String)
    (focus energy business_progress : Int) (notes : String) : List CsvRow :=
  file ++ [daily_log_new_row today focus energy business_progress notes]

end V3CC

namespace DailyOps

/-- Embeds the `new_row` dict literal of the `daily_log` form in
daily_operations_command.py (lines 387-393). -/
def daily_log_new_row (today : String) (focus energy business_progress : Int)
    (notes : String) : CsvRow :=
  [("Date", Cell.str today),
   ("Focus_Score", Cell.int focus),
   ("Energy_Score", Cell.int energy),
   ("Business_Progress", Cell.int business_progress),
   ("Notes", Cell.str notes)]

/-- Embeds the submit handler of the `daily_log` form in
daily_operations_command.py (lines 385-395). -/
def submit_daily_log (file : List CsvRow) (today : String)
    (focus energy business_progress : Int) (notes : String) : List CsvRow :=
  file ++ [daily_log_new_row today focus energy business_progress notes]

end DailyOps

/-- Claim C5: submitting the daily log form appends exactly one new row —
holding today's date and the entered focus, energy, business-progress
scores and notes — at the end of the daily-log CSV file, and leaves every
previously stored row unchanged. -/
theorem C5_daily_log_appends_one_row (file : List CsvRow) (today : String)
    (focus energy business_progress : Int) (notes : String) :
    (V3CC.submit_daily_log file today focus energy business_progress notes).length
      = file.length + 1 ∧
    (∀ i, i < file.length →
      (V3CC.submit_daily_log file today focus energy business_progress notes)[i]?
        = file[i]?) ∧
    (V3CC.submit_daily_log file today focus energy business_progress notes)[file.length]?
      = some (V3CC.daily_log_new_row today focus energy business_progress notes) ∧
    alookup "Date" (V3CC.daily_log_new_row today focus energy business_progress notes)
      = some (Cell.str today) ∧
    alookup "Focus_Score" (V3CC.daily_log_new_row today focus energy business_progress notes)
      = some (Cell.int focus) ∧
    alookup "Energy_Score" (V3CC.daily_log_new_row today focus energy business_progress notes)
      = some (Cell.int energy) ∧
    alookup "Business_Progress" (V3CC.daily_log_new_row today focus energy business_progress notes)
      = some (Cell.int business_progress) ∧
    alookup "Notes" (V3CC.daily_log_new_row today focus energy business_progress notes)
      = some (Cell.str notes) := by
  refine ⟨?_, ?_, ?_, rfl, rfl, rfl, rfl, rfl⟩
  · simp [V3CC.submit_daily_log]
  · intro i hi
    unfold V3CC.submit_daily_log
    rw [List.getElem?_append, if_pos hi]
  · unfold V3CC.submit_daily_log
    rw [List.getElem?_concat_length]

/-- Witness for `C5_daily_log_appends_one_row` on a one-row file. -/
theorem C5_daily_log_appends_one_row_witness :
    (V3CC.submit_daily_log [[("Date", Cell.str "2025-01-01")]]
        "2025-01-02" 8 7 6 "won").length = 2 ∧
    (V3CC.submit_daily_log [[("Date", Cell.str "2025-01-01")]]
        "2025-01-02" 8 7 6 "won")[0]? = some [("Date", Cell.str "2025-01-01")] :=
  ⟨(C5_daily_log_appends_one_row [[("Date", Cell.str "2025-01-01")]]
      "2025-01-02" 8 7 6 "won").1,
   (C5_daily_log_appends_one_row [[("Date", Cell.str "2025-01-01")]]
      "2025-01-02" 8 7 6 "won").2.1 0 (by decide)⟩

/-- Claim C7: the daily command-log operation behaves identically in the
two successive rewrites v3_command_center.py and
daily_operations_command.py: on the same stored file, date, focus,
energy, business-progress scores and notes, both build the same new row
with the same column names and append it to the same resulting file. -/
theorem C7_daily_log_rewrites_agree (file : List CsvRow) (today : String)
    (focus energy business_progress : Int) (notes : String) :
    V3CC.submit_daily_log file today focus energy business_progress notes
      = DailyOps.submit_daily_log file today focus energy business_progress notes ∧
    V3CC.daily_log_new_row today focus energy business_progress notes
      = DailyOps.daily_log_new_row today focus energy business_progress notes ∧
    (V3CC.daily_log_new_row today focus energy business_progress notes).map Prod.fst
      = (DailyOps.daily_log_new_row today focus energy business_progress notes).map Prod.fst :=
  ⟨rfl, rfl, rfl⟩

/-! ## load_data (v3_command_center_v2.py 108-146)

The JSON file read by `load_data` is in one of the states the function
distinguishes: absent (`FileNotFoundError`), undecodable
(`json.JSONDecodeError`), or holding a parsed JSON value whose root may
or may not be a dict.  Python dicts are modelled as association lists in
insertion order; `dict.update` overrides existing keys in place and
appends new ones, and the key-ensuring loop appends missing defaults.
The write of the defaults in the missing-file branch sits in its own
`try/except pass`, so its success (`writeOk`) cannot affect the returned
value. -/

inductive JVal where
  | obj : List (String × JVal) → JVal
  | arr : List JVal → JVal
  | str : String → JVal
  | num : Int → JVal
  | bool : Bool → JVal
  | null : JVal

inductive FileState where
  | missing : FileState
  | malformed : FileState
  | content : JVal → FileState

/-- Embeds `data.update(file_data)` for Python dicts: keys of `base` keep
their position with the updated value, keys only in `upd` are appended. -/
def dictUpdate (base upd : List (String × JVal)) : List (String × JVal) :=
  base.map (fun kv => (kv.1, (alookup kv.1 upd).getD kv.2)) ++
    upd.filter (fun kv => (alookup kv.1 base).isNone)

/-- Embeds `for key, default_value in default_data.items(): if key not in
data: data[key] = default_value`. -/
def ensureKeys (data default_data : List (String × JVal)) :
    List (String × JVal) :=
  default_data.foldl
    (fun d kv => if (alookup kv.1 d).isSome then d else d ++ [kv]) data

/-- Embeds `load_data(filename, default_data)`: start from a copy of the
defaults; on `FileNotFoundError` write the defaults back (ignoring write
errors) and return them; on `JSONDecodeError` return them; if the parsed
root is a dict merge it over the defaults, otherwise keep the defaults;
finally run the key-ensuring loop. -/
def load_data (fs : FileState) (default_data : List (String × JVal))
    (_writeOk : Bool) : List (String × JVal) :=
  match fs with
  | FileState.content (JVal.obj entries) =>
    ensureKeys (dictUpdate default_data entries) default_data
  | FileState.content _ => ensureKeys default_data default_data
  | FileState.missing => default_data
  | FileState.malformed => default_data

theorem alookup_append_isSome {α : Type} (k : String)
    (l₁ l₂ : List (String × α)) (h : (alookup k l₁).isSome) :
    (alookup k (l₁ ++ l₂)).isSome := by
  induction l₁ with
  | nil => simp [alookup] at h
  | cons kv rest ih =>
    simp only [List.cons_append, alookup]
    by_cases hk : kv.1 = k
    · simp [hk]
    · simp only [if_neg hk]
      apply ih
      simpa [alookup, if_neg hk] using h

theorem alookup_dictUpdate_isSome (k : String)
    (base upd : List (String × JVal)) (h : (alookup k base).isSome) :
    (alookup k (dictUpdate base upd)).isSome := by
  unfold dictUpdate
  apply alookup_append_isSome
  induction base with
  | nil => simp [alookup] at h
  | cons kv rest ih =>
    simp only [List.map_cons, alookup]
    by_cases hk : kv.1 = k
    · simp [hk]
    · simp only [if_neg hk]
      apply ih
      simpa [alookup, if_neg hk] using h

theorem ensureKeys_isSome (k : String)
    (default_data : List (String × JVal)) :
    ∀ d : List (String × JVal), (alookup k d).isSome →
      (alookup k (ensureKeys d default_data)).isSome := by
  induction default_data with
  | nil =>
    intro d h
    simpa [ensureKeys] using h
  | cons kv rest ih =>
    intro d h
    unfold ensureKeys
    simp only [List.foldl_cons]
    by_cases hkv : (alookup kv.1 d).isSome
    · rw [if_pos hkv]
      exact ih d h
    · rw [if_neg hkv]
      exact ih (d ++ [kv]) (alookup_append_isSome k d [kv] h)

/-- Claim C8: `load_data` is total over file state: for every default
dict, whether the file is missing, undecodable, holds a non-dict JSON
root, or holds a dict missing some default keys, it returns a dict that
still contains every key of `default_data`; every branch of the source
returns a dict (the embedding is a total function into association
lists) and the only write it performs is wrapped in its own
`try/except`, whose outcome (`writeOk`) cannot change the result. -/
theorem C8_load_data_keeps_default_keys (fs : FileState)
    (default_data : List (String × JVal)) (writeOk : Bool) (k : String)
    (hk : (alookup k default_data).isSome) :
    (alookup k (load_data fs default_data writeOk)).isSome := by
  cases fs with
  | missing => exact hk
  | malformed => exact hk
  | content j =>
    cases j with
    | obj entries =>
      exact ensureKeys_isSome k default_data (dictUpdate default_data entries)
        (alookup_dictUpdate_isSome k default_data entries hk)
    | arr l => exact ensureKeys_isSome k default_data default_data hk
    | str s => exact ensureKeys_isSome k default_data default_data hk
    | num n => exact ensureKeys_isSome k default_data default_data hk
    | bool b => exact ensureKeys_isSome k default_data default_data hk
    | null => exact ensureKeys_isSome k default_data default_data hk

/-- Witness for `C8_load_data_keeps_default_keys`: a malformed JSON file
still yields the default `pillars` key, and a list-rooted file still
yields the default `tasks` key. -/
theorem C8_load_data_keeps_default_keys_witness :
    (alookup "pillars"
      (load_data FileState.malformed [("pillars", JVal.arr [])] true)).isSome ∧
    (alookup "tasks"
      (load_data (FileState.content (JVal.arr []))
        [("tasks", JVal.arr [])] false)).isSome :=
  ⟨C8_load_data_keeps_default_keys FileState.malformed
      [("pillars", JVal.arr [])] true "pillars" rfl,
   C8_load_data_keeps_default_keys (FileState.content (JVal.arr []))
      [("tasks", JVal.arr [])] false "tasks" rfl⟩
